import Mathlib

/- Verification of the task-store core of the real-estate team manager
   (src/app.py) against its specification.

   A pandas cell is modelled by PyVal: the Python value None, the pandas
   missing marker NaN, or a string.  A DataFrame of task rows is a
   List TaskRecord in row order.  Python truthiness of these values is
   modelled by truthy (None and the empty string are falsy, NaN is truthy),
   and `x or y` by pyOr. -/

inductive PyVal where
  | none
  | nan
  | str (s : String)
  deriving DecidableEq, Repr

/-- Python truthiness of a cell value: None is falsy, NaN is truthy,
a string is truthy iff nonempty. -/
def truthy : PyVal → Bool
  | .none => false
  | .nan => true
  | .str s => !(s == "")

/-- Python `x or y`: y when x is falsy, else x. -/
def pyOr (a b : PyVal) : PyVal := if truthy a then a else b

/-- pandas Series.fillna applied with the empty string: missing values
(None or NaN) become the empty string, strings are unchanged. -/
def fillna : PyVal → PyVal
  | .str s => .str s
  | _ => .str ""

/-- pandas elementwise comparison of a cell with a Python string:
missing values (None or NaN) compare unequal to every string. -/
def pyEqStr : PyVal → String → Bool
  | .str s, t => s == t
  | _, _ => false

/-- The task-row shape built by make_task_row in src/app.py (a dict with
keys task_id, title, type, assignee, status, due, notes, pipeline_stage,
created, extra).  The dict key named type is spelled type_ here. -/
structure TaskRecord where
  task_id : PyVal
  title : PyVal
  type_ : PyVal
  assignee : PyVal
  status : PyVal
  due : PyVal
  notes : PyVal
  pipeline_stage : PyVal
  created : PyVal
  extra : List (String × String)
  deriving DecidableEq, Repr

/-- make_task_row from src/app.py lines 10-22.  freshId models the
str(uuid.uuid4()) call and now the datetime.now().isoformat() call;
`task_id or str(uuid.uuid4())` and `created or now` are modelled by pyOr.
Python's optional parameters are passed explicitly by every caller below,
spelled with the Python default values (task_id=None, title="", type_="",
assignee="", status="Backlog", due=None, notes="", pipeline_stage="Backlog",
created=None, extra=None, the last giving the empty dict). -/
def make_task_row (freshId now : String)
    (task_id title type_ assignee status due notes pipeline_stage created : PyVal)
    (extra : List (String × String)) : TaskRecord :=
  { task_id := pyOr task_id (PyVal.str freshId)
    title := title
    type_ := type_
    assignee := assignee
    status := status
    due := due
    notes := notes
    pipeline_stage := pipeline_stage
    created := pyOr created (PyVal.str now)
    extra := extra }

/-- The 26 core task titles of load_demo_tasks, src/app.py lines 26-53. -/
def core_tasks : List String :=
  [ "Cold Calling New Leads"
  , "Appointment Booking & Calendar Management"
  , "Marketing Content Creation (Posts, Reels, Ads)"
  , "VOPs Email Tracker Management"
  , "Lead Follow-Up (1–7 Day Sequences)"
  , "Open House Scheduling & Coordination"
  , "Property Showing Coordination"
  , "CRM Data Entry & Updating"
  , "Buyer Intake Screening"
  , "Seller Intake Screening"
  , "Running CMAs (Comparative Market Analysis)"
  , "Creating & Completing BPOs (Broker Price Opinions)"
  , "Weekly Market Update Reports"
  , "Social Media Posting & Engagement (Daily)"
  , "Listing Description Writing & Editing"
  , "Photo / Video Shoot Scheduling for Listings"
  , "Transaction Coordination Support"
  , "Document Collection & Verification"
  , "Pipeline Tracking (Active, Warm, Hot Leads)"
  , "Appointment Reminder Texts & Emails"
  , "Creating Buyer/Seller Guides & Material"
  , "Email Marketing Campaign Setup"
  , "Google Business Profile Updates & Reviews Follow-Up"
  , "Neighborhood Farming & Outreach Tasks"
  , "Weekly Team Reports & Analytics"
  , "Expired & FSBO Outreach" ]

/-- The for-loop body of load_demo_tasks: one make_task_row per title with
title=t, type_="Operational", assignee="", status="Backlog" and the other
parameters at their Python defaults.  gen i models the uuid drawn at the
i-th iteration. -/
def seed_tasks (gen : Nat → String) (now : String) : Nat → List String → List TaskRecord
  | _, [] => []
  | i, t :: ts =>
      make_task_row (gen i) now PyVal.none (PyVal.str t) (PyVal.str "Operational")
        (PyVal.str "") (PyVal.str "Backlog") PyVal.none (PyVal.str "")
        (PyVal.str "Backlog") PyVal.none []
      :: seed_tasks gen now (i + 1) ts

/-- load_demo_tasks, src/app.py lines 24-56. -/
def load_demo_tasks (gen : Nat → String) (now : String) : List TaskRecord :=
  seed_tasks gen now 0 core_tasks

/-- The Reset to Demo Tasks button handler, src/app.py lines 91-93: the
store is replaced by load_demo_tasks regardless of prior content. -/
def reset_to_demo (gen : Nat → String) (now : String)
    (_prior : List TaskRecord) : List TaskRecord :=
  load_demo_tasks gen now

/-- One row of the export view built by df_to_display, with the selected
column order task_id, title, type, assignee, status, pipeline_stage, due,
created, notes (src/app.py line 67). -/
structure DisplayRow where
  task_id : PyVal
  title : PyVal
  type_ : PyVal
  assignee : PyVal
  status : PyVal
  pipeline_stage : PyVal
  due : PyVal
  created : PyVal
  notes : PyVal
  deriving DecidableEq, Repr

/-- The created-column transform of df_to_display line 62:
x.split("T")[0] if pd.notna(x) else "". -/
def created_display : PyVal → PyVal
  | .str s => .str ((s.splitOn "T").headD "")
  | _ => .str ""

/-- df_to_display on a single record, src/app.py lines 58-67: due,
assignee, notes, type and pipeline_stage have missing values filled with
the empty string, created is cut at the first T, task_id, title and status
pass through unchanged. -/
def display_row (r : TaskRecord) : DisplayRow :=
  { task_id := r.task_id
    title := r.title
    type_ := fillna r.type_
    assignee := fillna r.assignee
    status := r.status
    pipeline_stage := fillna r.pipeline_stage
    due := fillna r.due
    created := created_display r.created
    notes := fillna r.notes }

/-- df_to_display, src/app.py lines 58-67. -/
def df_to_display (df : List TaskRecord) : List DisplayRow :=
  df.map display_row

/-- One row of an imported tabular source, restricted to the columns that
the import loop reads (created is never read; unknown columns ignored).
A field is Option.none when the column is absent from the source, and
some v when the column exists and the cell holds v (an empty CSV cell is
read by pandas as NaN, i.e. some PyVal.nan). -/
structure Row where
  task_id : Option PyVal
  title : Option PyVal
  type_ : Option PyVal
  assignee : Option PyVal
  status : Option PyVal
  due : Option PyVal
  notes : Option PyVal
  pipeline_stage : Option PyVal
  deriving DecidableEq, Repr

/-- r.get(col, default) on a pandas row: the default is returned only when
the column is absent; a present cell is returned as is, NaN included. -/
def rget (c : Option PyVal) (d : PyVal) : PyVal := c.getD d

/-- The body of the import loop, src/app.py lines 104-111: make_task_row
applied to the row's cells, with the r.get defaults of the source
(status defaults to "Backlog", pipeline_stage to "", due and task_id to
None, the text fields to ""); created and extra stay at their
make_task_row defaults. -/
def row_to_task (row : Row) (freshId now : String) : TaskRecord :=
  make_task_row freshId now
    (rget row.task_id PyVal.none)
    (rget row.title (PyVal.str ""))
    (rget row.type_ (PyVal.str ""))
    (rget row.assignee (PyVal.str ""))
    (rget row.status (PyVal.str "Backlog"))
    (rget row.due PyVal.none)
    (rget row.notes (PyVal.str ""))
    (rget row.pipeline_stage (PyVal.str ""))
    PyVal.none []

/-- The import loop of src/app.py lines 102-111, mapping every source row
through make_task_row; gen i models the uuid available at row i. -/
def import_loop (gen : Nat → String) (now : String) : Nat → List Row → List TaskRecord
  | _, [] => []
  | i, row :: rows => row_to_task row (gen i) now :: import_loop gen now (i + 1) rows

/-- The whole import handler, src/app.py lines 95-115: an unreadable
source (pd.read_csv / pd.read_excel raising) is caught and the store is
left as it was; a readable source replaces the whole store with the
mapped rows. -/
def import_tasks (gen : Nat → String) (now : String)
    (src : Except String (List Row)) (st : List TaskRecord) : List TaskRecord :=
  match src with
  | .error _ => st
  | .ok rows => import_loop gen now 0 rows

/-- Feeding an exported display row back to the import loop: every known
column is present and holds the displayed cell. -/
def display_to_row (d : DisplayRow) : Row :=
  { task_id := some d.task_id
    title := some d.title
    type_ := some d.type_
    assignee := some d.assignee
    status := some d.status
    due := some d.due
    notes := some d.notes
    pipeline_stage := some d.pipeline_stage }

/-- Export via df_to_display followed by re-import via the import loop. -/
def round_trip (gen : Nat → String) (now : String)
    (df : List TaskRecord) : List TaskRecord :=
  import_loop gen now 0 ((df_to_display df).map display_to_row)

/- Text search.  pandas Series.str.contains(query, case=False, na=False)
   at src/app.py line 171 keeps its regex default (regex=True), so the
   query is a regular expression handed to re.search with re.IGNORECASE,
   and missing cells count as no match. -/

/-- The characters the Python re module treats as special. -/
def meta_chars : List Char :=
  ['.', '^', '$', '*', '+', '?', '\x7b', '\x7d', '[', ']', '\\', '|', '(', ')']

/-- Match of a regex pattern at one position, for the regex fragment built
from literal characters and the '.' wildcard (case already folded by the
caller); other regex constructs are outside this model. -/
def match_at : List Char → List Char → Bool
  | [], _ => true
  | _ :: _, [] => false
  | p :: ps, c :: cs => (p == '.' || p == c) && match_at ps cs

/-- Models Python re.search with re.IGNORECASE as invoked by pandas
Series.str.contains(query, case=False) in src/app.py line 171, restricted
to patterns built from literal characters and the '.' wildcard. -/
def re_search_ci (pat s : String) : Bool :=
  ((s.toList.map Char.toLower).tails).any
    (fun t => match_at (pat.toList.map Char.toLower) t)

/-- Series.str.contains(query, case=False, na=False) on one cell: missing
values count as no match. -/
def py_contains (v : PyVal) (q : String) : Bool :=
  match v with
  | .str s => re_search_ci q s
  | _ => false

/-- Follows the claim's words, for comparison with py_contains: the query
text occurs case-insensitively as a literal substring. -/
def substr_ci (q s : String) : Bool :=
  ((s.toList.map Char.toLower).tails).any
    (fun t => (q.toList.map Char.toLower).isPrefixOf t)

/-- Follows the claim's words on one cell: literal case-insensitive
substring of the cell, no match on missing values. -/
def py_substr (v : PyVal) (q : String) : Bool :=
  match v with
  | .str s => substr_ci q s
  | _ => false

/-- The Tasks Board search and filter chain, src/app.py lines 167-175:
a nonempty query keeps rows whose title or notes match it, then the type
and assignee selections are applied when not "All". -/
def tasks_board_filter (query type_filter assignee_filter : String)
    (df : List TaskRecord) : List TaskRecord :=
  let df1 := if query ≠ "" then
      df.filter (fun r => py_contains r.title query || py_contains r.notes query)
    else df
  let df2 := if type_filter ≠ "All" then
      df1.filter (fun r => pyEqStr r.type_ type_filter)
    else df1
  if assignee_filter ≠ "All" then
    df2.filter (fun r => pyEqStr r.assignee assignee_filter)
  else df2

/-- The Dashboard quick filters, src/app.py lines 152-158: assignee then
status, each skipped when "All". -/
def dashboard_filter (f_assignee f_status : String)
    (df : List TaskRecord) : List TaskRecord :=
  let tmp := if f_assignee ≠ "All" then
      df.filter (fun r => pyEqStr r.assignee f_assignee)
    else df
  if f_status ≠ "All" then
    tmp.filter (fun r => pyEqStr r.status f_status)
  else tmp

/-- Conjunction of the Tasks Board criteria on one record, with the code's
text matcher py_contains; "All" and the empty query impose no constraint. -/
def board_matches (query type_filter assignee_filter : String)
    (r : TaskRecord) : Bool :=
  (query == "" || (py_contains r.title query || py_contains r.notes query)) &&
  (type_filter == "All" || pyEqStr r.type_ type_filter) &&
  (assignee_filter == "All" || pyEqStr r.assignee assignee_filter)

/-- Conjunction of the Dashboard criteria on one record. -/
def dash_matches (f_assignee f_status : String) (r : TaskRecord) : Bool :=
  (f_assignee == "All" || pyEqStr r.assignee f_assignee) &&
  (f_status == "All" || pyEqStr r.status f_status)

/-- Follows the claim's words, for comparison with board_matches: the text
criterion is literal case-insensitive substring of title or notes. -/
def spec_board_matches (query type_filter assignee_filter : String)
    (r : TaskRecord) : Bool :=
  (query == "" || (py_substr r.title query || py_substr r.notes query)) &&
  (type_filter == "All" || pyEqStr r.type_ type_filter) &&
  (assignee_filter == "All" || pyEqStr r.assignee assignee_filter)

/- Single-record edit and bulk actions.  Both locate the first index whose
   task_id equals the chosen id string and mutate or drop that row
   (src/app.py lines 193-200 and 213-226). -/

/-- Locate the first element satisfying p and replace it by f x (drop it
when f x is none); everything else is untouched.  Models the pattern
idx = df.index of first match, then .at mutation or .drop of that row. -/
def update_first {α : Type} (p : α → Bool) (f : α → Option α) : List α → List α
  | [] => []
  | x :: xs =>
      if p x then
        match f x with
        | some y => y :: xs
        | none => xs
      else x :: update_first p f xs

/-- The seven fields written by the edit form handler, src/app.py lines
194-200; the form always submits all of them as strings (due is
e_due.isoformat()). -/
structure EditFields where
  title : String
  type_ : String
  assignee : String
  status : String
  pipeline_stage : String
  due : String
  notes : String
  deriving DecidableEq, Repr

/-- The seven .at assignments of the edit handler on the selected row;
task_id, created and extra are not written. -/
def apply_edit (e : EditFields) (r : TaskRecord) : TaskRecord :=
  { r with
    title := PyVal.str e.title
    type_ := PyVal.str e.type_
    assignee := PyVal.str e.assignee
    status := PyVal.str e.status
    pipeline_stage := PyVal.str e.pipeline_stage
    due := PyVal.str e.due
    notes := PyVal.str e.notes }

/-- The Update Task handler, src/app.py lines 192-200: the first row whose
task_id equals edit_id gets the seven form fields written. -/
def update_task (edit_id : String) (e : EditFields)
    (df : List TaskRecord) : List TaskRecord :=
  update_first (fun r => pyEqStr r.task_id edit_id) (fun r => some (apply_edit e r)) df

/-- The four bulk actions offered at src/app.py line 206. -/
inductive BulkAction where
  | setInProgress
  | setCompleted
  | assignTo (v : String)
  | deleteSel
  deriving DecidableEq, Repr

/-- One iteration of the bulk loop, src/app.py lines 213-225: the first
row with the given id is mutated or dropped; when no row matches, the id
is skipped (continue) and the store is unchanged. -/
def bulk_step (act : BulkAction) (df : List TaskRecord) (tid : String) : List TaskRecord :=
  match act with
  | .setInProgress =>
      update_first (fun r => pyEqStr r.task_id tid)
        (fun r => some { r with status := PyVal.str "In Progress" }) df
  | .setCompleted =>
      update_first (fun r => pyEqStr r.task_id tid)
        (fun r => some { r with status := PyVal.str "Completed" }) df
  | .assignTo v =>
      update_first (fun r => pyEqStr r.task_id tid)
        (fun r => some { r with assignee := PyVal.str v }) df
  | .deleteSel =>
      update_first (fun r => pyEqStr r.task_id tid) (fun _ => none) df

/-- The bulk handler, src/app.py lines 209-227: an empty selection only
warns and leaves the store as is; otherwise the loop runs over the
selected ids (the final reset_index is the identity on this model). -/
def bulk_actions (selected_ids : List String) (act : BulkAction)
    (df : List TaskRecord) : List TaskRecord :=
  if selected_ids.isEmpty then df
  else selected_ids.foldl (bulk_step act) df

/-- A record is selected iff some id in the list equals its task_id. -/
def any_sel (ids : List String) (r : TaskRecord) : Bool :=
  ids.any (fun tid => pyEqStr r.task_id tid)

/-- The Create Quick Task handler, src/app.py lines 128-132: make_task_row
with title, assignee and type from the form, due an isoformat string or
None, and every other parameter at its Python default (the notes field of
the form is not passed), appended to the store. -/
def quick_task_create (gen : Nat → String) (now : String) (n : Nat)
    (q_title q_assignee q_type : String) (q_due : PyVal)
    (df : List TaskRecord) : List TaskRecord :=
  df ++ [make_task_row (gen n) now PyVal.none (PyVal.str q_title) (PyVal.str q_type)
    (PyVal.str q_assignee) (PyVal.str "Backlog") q_due (PyVal.str "")
    (PyVal.str "Backlog") PyVal.none []]

/-- df["pipeline_stage"].value_counts() at one category value v
(src/app.py line 148): the number of records whose pipeline_stage is the
string v; value_counts drops missing values, so only string categories
occur. -/
def pipeline_stage_count (df : List TaskRecord) (v : String) : Nat :=
  df.countP (fun r => pyEqStr r.pipeline_stage v)

/- Persona chat model.  The chat application described by the spec is not
   under src/ (only the task-manager app.py is), so the conversation store
   is modelled from the spec. -/

inductive Role where
  | system
  | user
  | assistant
  deriving DecidableEq, Repr

structure Message where
  role : Role
  content : String
  deriving DecidableEq, Repr

/-- Modelled from the spec: missing chat-application source.  §3: a fresh
Conversation is seeded with exactly the persona's instruction as its sole
system message. -/
def init_conversation (instruction : String) : List Message :=
  [{ role := Role.system, content := instruction }]

/-- Modelled from the spec: missing chat-application source.  §3: every
persona of the registry gets its conversation at process start. -/
def init_conversations (registry : List (String × String)) :
    List (String × List Message) :=
  registry.map (fun p => (p.1, init_conversation p.2))

/-- The mutations §4.2 allows on one conversation. -/
inductive ChatOp where
  | appendUser (text : String)
  | appendAssistant (text : String)
  | reset
  deriving DecidableEq, Repr

/-- Modelled from the spec: missing chat-application source.  §4.2:
appendUser rejects whitespace-only text without appending; a successful
sendToModel appends the assistant reply (a failed call leaves the
conversation unchanged, hence is the identity and needs no op); reset
truncates back to the system message. -/
def apply_chat_op (instruction : String) (conv : List Message) :
    ChatOp → List Message
  | .appendUser t =>
      if t.trim == "" then conv else conv ++ [{ role := Role.user, content := t }]
  | .appendAssistant t => conv ++ [{ role := Role.assistant, content := t }]
  | .reset => init_conversation instruction

/-- Any interleaving of the §4.2 operations, applied in order. -/
def run_chat (instruction : String) (conv : List Message)
    (ops : List ChatOp) : List Message :=
  ops.foldl (apply_chat_op instruction) conv

/-- A concrete injective id supply used by the witnesses: k letters a. -/
def gen_id (k : Nat) : String := String.mk (List.replicate k 'a')

/-- What one export-and-reimport pass does to a record whose task_id is
truthy: the fillna-ed columns come back with missing values turned into
the empty string, created is regenerated at import time, extra is reset;
task_id, title and status come back unchanged. -/
def reimport_normalize (now : String) (r : TaskRecord) : TaskRecord :=
  { r with
    type_ := fillna r.type_
    assignee := fillna r.assignee
    notes := fillna r.notes
    pipeline_stage := fillna r.pipeline_stage
    due := fillna r.due
    created := PyVal.str now
    extra := [] }

/-- A record as the store itself creates it: nonempty uuid string id,
title set, absent due. -/
def sample_task : TaskRecord :=
  make_task_row "id-0" "2024-01-02T00:00:00" PyVal.none
    (PyVal.str "Cold Calling New Leads") (PyVal.str "Operational") (PyVal.str "")
    (PyVal.str "Backlog") PyVal.none (PyVal.str "") (PyVal.str "Backlog")
    PyVal.none []

/-- A row of an imported source whose task_id column exists but whose cell
is empty: pandas reads the cell as NaN. -/
def nan_id_row : Row :=
  { task_id := some PyVal.nan
    title := some (PyVal.str "A")
    type_ := Option.none
    assignee := Option.none
    status := Option.none
    due := Option.none
    notes := Option.none
    pipeline_stage := Option.none }

/-- A row of an imported source that has no task_id column at all. -/
def absent_id_row : Row :=
  { task_id := Option.none
    title := some (PyVal.str "B")
    type_ := Option.none
    assignee := Option.none
    status := Option.none
    due := Option.none
    notes := Option.none
    pipeline_stage := Option.none }

/-- A query is wholly literal: no regex metacharacter occurs (checked on
the lowercased text the matcher sees; lowercasing never produces a
metacharacter). -/
def meta_free (q : String) : Bool :=
  (q.toList.map Char.toLower).all (fun c => !(meta_chars.contains c))

/-- A query inside the modelled regex fragment: every character is either
literal or the '.' wildcard. -/
def supported_pattern (q : String) : Bool :=
  (q.toList.map Char.toLower).all (fun c => !(meta_chars.contains c) || c == '.')

/-- A stored record with title xyz and empty notes. -/
def dot_task : TaskRecord :=
  make_task_row "id-2" "2024-01-02T00:00:00" PyVal.none (PyVal.str "xyz")
    (PyVal.str "Operational") (PyVal.str "") (PyVal.str "Backlog") PyVal.none
    (PyVal.str "") (PyVal.str "Backlog") PyVal.none []

/-- The seven edit-form fields used by the witnesses. -/
def edit0 : EditFields :=
  { title := "Cold Calling New Leads"
    type_ := "Sales"
    assignee := "Bo"
    status := "Completed"
    pipeline_stage := "Closed"
    due := "2024-02-03"
    notes := "done" }

/-- A row of an imported source carrying an explicit task_id x. -/
def dup_row : Row :=
  { task_id := some (PyVal.str "x")
    title := some (PyVal.str "A")
    type_ := Option.none
    assignee := Option.none
    status := Option.none
    due := Option.none
    notes := Option.none
    pipeline_stage := Option.none }

/- Helper lemmas. -/

lemma gen_id_inj : Function.Injective gen_id := by
  intro a b h
  have h1 : List.replicate a 'a' = List.replicate b 'a' := by
    have h2 := congrArg String.data h
    simpa [gen_id] using h2
  simpa using congrArg List.length h1

lemma pyEqStr_true {v : PyVal} {t : String} : pyEqStr v t = true ↔ v = PyVal.str t := by
  cases v <;> simp [pyEqStr]

lemma seed_tasks_map_title (gen : Nat → String) (now : String) :
    ∀ (i : Nat) (ts : List String),
      (seed_tasks gen now i ts).map (fun r => r.title) = ts.map PyVal.str := by
  intro i ts
  induction ts generalizing i with
  | nil => rfl
  | cons t ts ih => simp [seed_tasks, make_task_row, ih]

lemma seed_tasks_mem (gen : Nat → String) (now : String) :
    ∀ (i : Nat) (ts : List String) (r : TaskRecord), r ∈ seed_tasks gen now i ts →
      r.status = PyVal.str "Backlog" ∧ r.type_ = PyVal.str "Operational" ∧
        r.assignee = PyVal.str "" := by
  intro i ts
  induction ts generalizing i with
  | nil => intro r hr; cases hr
  | cons t ts ih =>
      intro r hr
      rcases List.mem_cons.mp hr with hr | hr
      · subst hr
        exact ⟨rfl, rfl, rfl⟩
      · exact ih (i + 1) r hr

lemma seed_tasks_length (gen : Nat → String) (now : String) :
    ∀ (i : Nat) (ts : List String), (seed_tasks gen now i ts).length = ts.length := by
  intro i ts
  induction ts generalizing i with
  | nil => rfl
  | cons t ts ih => simp [seed_tasks, ih]

/-- Claim C5: after resetToDemo, regardless of prior store content, the
store holds exactly the 26 fixed demo titles, every record with status
Backlog, type Operational and an empty assignee. -/
theorem reset_to_demo_spec (gen : Nat → String) (now : String)
    (prior : List TaskRecord) :
    (reset_to_demo gen now prior).length = 26 ∧
    (reset_to_demo gen now prior).map (fun r => r.title) = core_tasks.map PyVal.str ∧
    ∀ r ∈ reset_to_demo gen now prior,
      r.status = PyVal.str "Backlog" ∧ r.type_ = PyVal.str "Operational" ∧
        r.assignee = PyVal.str "" := by
  refine ⟨?_, ?_, ?_⟩
  · rw [reset_to_demo, load_demo_tasks, seed_tasks_length]
    rfl
  · exact seed_tasks_map_title gen now 0 core_tasks
  · intro r hr
    exact seed_tasks_mem gen now 0 core_tasks r hr

/-- Claim C6: a record produced by the quick-create handler is appended
with a fresh generated id distinct from every previously generated one,
status and pipeline_stage defaulting to Backlog, created set to the
current time, and the unspecified optional fields at empty string / null
(notes empty, extra empty, due exactly as supplied). -/
theorem create_defaults_spec (gen : Nat → String) (hinj : Function.Injective gen)
    (now : String) (n m : Nat) (hm : m < n) (q_title q_assignee q_type : String)
    (q_due : PyVal) (df : List TaskRecord) :
    ∃ r : TaskRecord,
      quick_task_create gen now n q_title q_assignee q_type q_due df = df ++ [r] ∧
      r.task_id = PyVal.str (gen n) ∧
      PyVal.str (gen n) ≠ PyVal.str (gen m) ∧
      r.status = PyVal.str "Backlog" ∧
      r.pipeline_stage = PyVal.str "Backlog" ∧
      r.created = PyVal.str now ∧
      r.notes = PyVal.str "" ∧
      r.due = q_due ∧
      r.extra = [] := by
  refine ⟨_, rfl, ?_, ?_, rfl, rfl, ?_, rfl, rfl, rfl⟩
  · simp [make_task_row, pyOr, truthy]
  · intro h
    have h1 : gen n = gen m := by
      simpa using h
    exact absurd (hinj h1) (Nat.ne_of_gt hm)
  · simp [make_task_row, pyOr, truthy]

/-- Witness for create_defaults_spec at a concrete injective generator. -/
theorem create_defaults_spec_witness :
    ∃ r : TaskRecord,
      quick_task_create gen_id "2024-01-02T03:04:05" 1 "Call back lead" "Ana"
          "Operational" PyVal.none [] = [] ++ [r] ∧
      r.task_id = PyVal.str (gen_id 1) ∧
      PyVal.str (gen_id 1) ≠ PyVal.str (gen_id 0) ∧
      r.status = PyVal.str "Backlog" ∧
      r.pipeline_stage = PyVal.str "Backlog" ∧
      r.created = PyVal.str "2024-01-02T03:04:05" ∧
      r.notes = PyVal.str "" ∧
      r.due = PyVal.none ∧
      r.extra = [] :=
  create_defaults_spec gen_id gen_id_inj "2024-01-02T03:04:05" 1 0 (by decide)
    "Call back lead" "Ana" "Operational" PyVal.none []

/-- Claim C2 (code-bug exhibit).  The all-or-nothing part holds: an
unreadable source leaves the store untouched, and a source without a
task_id column gets fresh generated ids.  But a row whose task_id cell is
empty is read as NaN, which is truthy in Python, so `task_id or uuid4()`
keeps NaN instead of assigning a fresh id — two such rows share the NaN id
and NaN is no generated string id. -/
theorem import_nan_id_eval (gen : Nat → String) (now : String) :
    (∀ (msg : String) (st : List TaskRecord),
        import_tasks gen now (Except.error msg) st = st) ∧
    (import_loop gen now 0 [nan_id_row, nan_id_row]).map (fun r => r.task_id) =
        [PyVal.nan, PyVal.nan] ∧
    (∀ s : String, PyVal.nan ≠ PyVal.str s) ∧
    (import_loop gen now 0 [absent_id_row]).map (fun r => r.task_id) =
        [PyVal.str (gen 0)] := by
  refine ⟨fun msg st => rfl, ?_, ?_, ?_⟩
  · simp [import_loop, row_to_task, make_task_row, rget, nan_id_row, pyOr, truthy]
  · intro s h
    cases h
  · simp [import_loop, row_to_task, make_task_row, rget, absent_id_row, pyOr, truthy]

lemma import_loop_pipeline (gen : Nat → String) (now : String) :
    ∀ (i : Nat) (rows : List Row),
      (∀ row ∈ rows, row.pipeline_stage = Option.none) →
      ∀ r ∈ import_loop gen now i rows, r.pipeline_stage = PyVal.str "" := by
  intro i rows
  induction rows generalizing i with
  | nil => intro _ r hr; cases hr
  | cons row rows ih =>
      intro h r hr
      rcases List.mem_cons.mp hr with hr | hr
      · subst hr
        have h0 : row.pipeline_stage = Option.none := h row (by simp)
        simp [row_to_task, make_task_row, rget, h0]
      · exact ih (i + 1) (fun x hx => h x (by simp [hx])) r hr

/-- Claim C10: importing a source that lacks a pipeline_stage column gives
every resulting record pipeline_stage equal to the empty string — not the
Backlog default of creation — so those records form their own empty-string
category in the pipeline-stage counts and none are counted as Backlog. -/
theorem import_missing_pipeline_stage (gen : Nat → String) (now : String)
    (rows : List Row) (h : ∀ row ∈ rows, row.pipeline_stage = Option.none) :
    (∀ r ∈ import_loop gen now 0 rows,
        r.pipeline_stage = PyVal.str "" ∧ r.pipeline_stage ≠ PyVal.str "Backlog") ∧
    pipeline_stage_count (import_loop gen now 0 rows) "" =
        (import_loop gen now 0 rows).length ∧
    pipeline_stage_count (import_loop gen now 0 rows) "Backlog" = 0 := by
  have hall := import_loop_pipeline gen now 0 rows h
  refine ⟨?_, ?_, ?_⟩
  · intro r hr
    refine ⟨hall r hr, ?_⟩
    rw [hall r hr]
    intro hcon
    simp at hcon
  · rw [pipeline_stage_count, List.countP_eq_length]
    intro r hr
    rw [pyEqStr_true]
    exact hall r hr
  · rw [pipeline_stage_count, List.countP_eq_zero]
    intro r hr hcon
    rw [pyEqStr_true] at hcon
    rw [hall r hr] at hcon
    simp at hcon

/-- Witness for import_missing_pipeline_stage on a one-row source without
a pipeline_stage column. -/
theorem import_missing_pipeline_stage_witness :
    (∀ r ∈ import_loop gen_id "2024-01-02T00:00:00" 0 [absent_id_row],
        r.pipeline_stage = PyVal.str "" ∧ r.pipeline_stage ≠ PyVal.str "Backlog") ∧
    pipeline_stage_count (import_loop gen_id "2024-01-02T00:00:00" 0 [absent_id_row]) "" =
        (import_loop gen_id "2024-01-02T00:00:00" 0 [absent_id_row]).length ∧
    pipeline_stage_count (import_loop gen_id "2024-01-02T00:00:00" 0 [absent_id_row]) "Backlog" = 0 :=
  import_missing_pipeline_stage gen_id "2024-01-02T00:00:00" [absent_id_row]
    (by
      intro row hrow
      rcases List.mem_cons.mp hrow with h | h
      · subst h
        rfl
      · cases h)

/- The conversation invariant of the chat model. -/

lemma chat_op_preserves (instruction : String) (conv : List Message)
    (h1 : conv.head? = some { role := Role.system, content := instruction })
    (h2 : conv.countP (fun m => m.role == Role.system) = 1) (op : ChatOp) :
    (apply_chat_op instruction conv op).head? =
        some { role := Role.system, content := instruction } ∧
    (apply_chat_op instruction conv op).countP (fun m => m.role == Role.system) = 1 := by
  obtain ⟨m0, rest, rfl⟩ : ∃ m0 rest, conv = m0 :: rest := by
    cases conv with
    | nil => simp at h1
    | cons a l => exact ⟨a, l, rfl⟩
  have hm0 : m0 = { role := Role.system, content := instruction } := by
    simpa using h1
  cases op with
  | appendUser t =>
      simp only [apply_chat_op]
      by_cases ht : (t.trim == "") = true
      · rw [if_pos ht]
        exact ⟨h1, h2⟩
      · rw [if_neg ht]
        refine ⟨?_, ?_⟩
        · simp only [List.cons_append, List.head?_cons, hm0]
        · rw [List.countP_append, h2]
          rfl
  | appendAssistant t =>
      refine ⟨?_, ?_⟩
      · simp only [apply_chat_op, List.cons_append, List.head?_cons, hm0]
      · simp only [apply_chat_op]
        rw [List.countP_append, h2]
        rfl
  | reset => exact ⟨rfl, rfl⟩

lemma run_chat_preserves (instruction : String) :
    ∀ (ops : List ChatOp) (conv : List Message),
      conv.head? = some { role := Role.system, content := instruction } →
      conv.countP (fun m => m.role == Role.system) = 1 →
      (run_chat instruction conv ops).head? =
          some { role := Role.system, content := instruction } ∧
      (run_chat instruction conv ops).countP (fun m => m.role == Role.system) = 1 := by
  intro ops
  induction ops with
  | nil => intro conv h1 h2; exact ⟨h1, h2⟩
  | cons op ops ih =>
      intro conv h1 h2
      have h := chat_op_preserves instruction conv h1 h2 op
      exact ih (apply_chat_op instruction conv op) h.1 h.2

/-- Claim C9: for every persona of the registry, the freshly initialized
conversation is exactly one system message carrying the registry's
instruction; the system message stays first and unique under every
sequence of conversation operations. -/
theorem conversation_init_spec (registry : List (String × String))
    (p instruction : String) (hp : (p, instruction) ∈ registry) :
    ((p, [{ role := Role.system, content := instruction }]) ∈
        init_conversations registry) ∧
    (init_conversation instruction).length = 1 ∧
    (init_conversation instruction).head? =
        some { role := Role.system, content := instruction } ∧
    ∀ ops : List ChatOp,
      (run_chat instruction (init_conversation instruction) ops).head? =
          some { role := Role.system, content := instruction } ∧
      (run_chat instruction (init_conversation instruction) ops).countP
          (fun m => m.role == Role.system) = 1 := by
  refine ⟨?_, rfl, rfl, ?_⟩
  · have := List.mem_map_of_mem (fun q => (q.1, init_conversation q.2)) hp
    simpa [init_conversations, init_conversation] using this
  · intro ops
    exact run_chat_preserves instruction ops (init_conversation instruction) rfl rfl

/-- Witness for conversation_init_spec on a one-persona registry. -/
theorem conversation_init_spec_witness :
    ((("Buyer Agent"), [{ role := Role.system, content := "You help buyers." }]) ∈
        init_conversations [("Buyer Agent", "You help buyers.")]) ∧
    (init_conversation "You help buyers.").length = 1 ∧
    (init_conversation "You help buyers.").head? =
        some { role := Role.system, content := "You help buyers." } ∧
    ∀ ops : List ChatOp,
      (run_chat "You help buyers." (init_conversation "You help buyers.") ops).head? =
          some { role := Role.system, content := "You help buyers." } ∧
      (run_chat "You help buyers." (init_conversation "You help buyers.") ops).countP
          (fun m => m.role == Role.system) = 1 :=
  conversation_init_spec [("Buyer Agent", "You help buyers.")] "Buyer Agent"
    "You help buyers." (by simp)

lemma truthy_none : truthy PyVal.none = false := rfl

lemma import_display (gen : Nat → String) (now : String) :
    ∀ (i : Nat) (df : List TaskRecord), (∀ r ∈ df, truthy r.task_id = true) →
      import_loop gen now i (df.map (fun r => display_to_row (display_row r))) =
        df.map (reimport_normalize now) := by
  intro i df
  induction df generalizing i with
  | nil => intro _; rfl
  | cons r df ih =>
      intro h
      have hr : truthy r.task_id = true := h r (by simp)
      have hrest : ∀ x ∈ df, truthy x.task_id = true := fun x hx => h x (by simp [hx])
      simp only [List.map_cons, import_loop]
      rw [ih (i + 1) hrest]
      congr 1
      simp [row_to_task, display_to_row, display_row, make_task_row, rget,
        reimport_normalize, pyOr, hr, truthy_none]

/-- Claim C1 (amended): exporting then re-importing maps every record
(with a truthy task_id, as every stored id string is) through
reimport_normalize, which preserves task_id, title, status, and preserves
type, assignee, notes, pipeline_stage and due whenever they hold strings;
an absent (None or NaN) due comes back as the empty string instead. -/
theorem round_trip_amended (gen : Nat → String) (now : String)
    (df : List TaskRecord) (h : ∀ r ∈ df, truthy r.task_id = true) :
    round_trip gen now df = df.map (reimport_normalize now) ∧
    ∀ r : TaskRecord,
      (reimport_normalize now r).task_id = r.task_id ∧
      (reimport_normalize now r).title = r.title ∧
      (reimport_normalize now r).status = r.status ∧
      (∀ s, r.type_ = PyVal.str s → (reimport_normalize now r).type_ = r.type_) ∧
      (∀ s, r.assignee = PyVal.str s → (reimport_normalize now r).assignee = r.assignee) ∧
      (∀ s, r.notes = PyVal.str s → (reimport_normalize now r).notes = r.notes) ∧
      (∀ s, r.pipeline_stage = PyVal.str s →
          (reimport_normalize now r).pipeline_stage = r.pipeline_stage) ∧
      (∀ s, r.due = PyVal.str s → (reimport_normalize now r).due = r.due) ∧
      ((r.due = PyVal.none ∨ r.due = PyVal.nan) →
          (reimport_normalize now r).due = PyVal.str "") := by
  constructor
  · rw [round_trip, df_to_display, List.map_map]
    exact import_display gen now 0 df h
  · intro r
    refine ⟨rfl, rfl, rfl, ?_, ?_, ?_, ?_, ?_, ?_⟩
    · intro s hs
      simp [reimport_normalize, hs, fillna]
    · intro s hs
      simp [reimport_normalize, hs, fillna]
    · intro s hs
      simp [reimport_normalize, hs, fillna]
    · intro s hs
      simp [reimport_normalize, hs, fillna]
    · intro s hs
      simp [reimport_normalize, hs, fillna]
    · intro hd
      rcases hd with hd | hd <;> simp [reimport_normalize, hd, fillna]

/-- Witness for round_trip_amended on a one-record store. -/
theorem round_trip_amended_witness :
    round_trip gen_id "2024-01-03T00:00:00" [sample_task] =
        [sample_task].map (reimport_normalize "2024-01-03T00:00:00") ∧
    ∀ r : TaskRecord,
      (reimport_normalize "2024-01-03T00:00:00" r).task_id = r.task_id ∧
      (reimport_normalize "2024-01-03T00:00:00" r).title = r.title ∧
      (reimport_normalize "2024-01-03T00:00:00" r).status = r.status ∧
      (∀ s, r.type_ = PyVal.str s →
          (reimport_normalize "2024-01-03T00:00:00" r).type_ = r.type_) ∧
      (∀ s, r.assignee = PyVal.str s →
          (reimport_normalize "2024-01-03T00:00:00" r).assignee = r.assignee) ∧
      (∀ s, r.notes = PyVal.str s →
          (reimport_normalize "2024-01-03T00:00:00" r).notes = r.notes) ∧
      (∀ s, r.pipeline_stage = PyVal.str s →
          (reimport_normalize "2024-01-03T00:00:00" r).pipeline_stage = r.pipeline_stage) ∧
      (∀ s, r.due = PyVal.str s →
          (reimport_normalize "2024-01-03T00:00:00" r).due = r.due) ∧
      ((r.due = PyVal.none ∨ r.due = PyVal.nan) →
          (reimport_normalize "2024-01-03T00:00:00" r).due = PyVal.str "") :=
  round_trip_amended gen_id "2024-01-03T00:00:00" [sample_task]
    (by
      intro r hr
      rcases List.mem_cons.mp hr with h | h
      · subst h
        rfl
      · cases h)

/-- Claim C1 as stated is false: a record whose due is absent (None) comes
back from export-and-reimport with due the empty string, not the original
absent due. -/
theorem round_trip_loses_absent_due :
    sample_task.due = PyVal.none ∧
    (round_trip gen_id "2024-01-03T00:00:00" [sample_task]).map (fun r => r.due) =
        [PyVal.str ""] := by
  exact ⟨rfl, rfl⟩

lemma beq_decide (a b : String) : (a == b) = decide (a = b) := by
  by_cases h : a = b <;> simp [h]

lemma guard_filter (b : Prop) [Decidable b] (p : TaskRecord → Bool)
    (df : List TaskRecord) :
    (if b then df.filter p else df) = df.filter (fun r => !(decide b) || p r) := by
  by_cases hb : b
  · simp [hb]
  · simp [hb]

lemma match_at_no_meta :
    ∀ (p t : List Char), (∀ c ∈ p, c ≠ '.') → match_at p t = p.isPrefixOf t := by
  intro p
  induction p with
  | nil =>
      intro t _
      simp [match_at, List.isPrefixOf]
  | cons c p ih =>
      intro t h
      cases t with
      | nil => rfl
      | cons d t =>
          have hc : (c == '.') = false := by
            have h1 := h c (by simp)
            simp [h1]
          simp [match_at, List.isPrefixOf, hc,
            ih t (fun x hx => h x (by simp [hx]))]

lemma contains_eq_substr (q : String) (h : meta_free q = true) (v : PyVal) :
    py_contains v q = py_substr v q := by
  cases v with
  | none => rfl
  | nan => rfl
  | str s =>
      simp only [py_contains, py_substr, re_search_ci, substr_ci]
      have hfun : (fun t => match_at (q.toList.map Char.toLower) t) =
          (fun t => (q.toList.map Char.toLower).isPrefixOf t) := by
        funext t
        apply match_at_no_meta
        intro c hc hcdot
        subst hcdot
        have h2 := (List.all_eq_true.mp h) '.' hc
        simp [meta_chars] at h2
      rw [hfun]

lemma board_filter_eq (query type_filter assignee_filter : String)
    (df : List TaskRecord) :
    tasks_board_filter query type_filter assignee_filter df =
      df.filter (board_matches query type_filter assignee_filter) := by
  simp only [tasks_board_filter]
  rw [guard_filter, guard_filter, guard_filter, List.filter_filter,
    List.filter_filter]
  apply List.filter_congr
  intro r _
  simp only [board_matches, beq_decide, decide_not, Bool.not_not]
  cases decide (query = "") <;> cases decide (type_filter = "All") <;>
    cases decide (assignee_filter = "All") <;>
      simp [Bool.and_comm, Bool.and_left_comm, Bool.and_assoc]

lemma dash_filter_eq (f_assignee f_status : String) (df : List TaskRecord) :
    dashboard_filter f_assignee f_status df =
      df.filter (dash_matches f_assignee f_status) := by
  simp only [dashboard_filter]
  rw [guard_filter, guard_filter, List.filter_filter]
  apply List.filter_congr
  intro r _
  simp only [dash_matches, beq_decide, decide_not, Bool.not_not]
  cases decide (f_assignee = "All") <;> cases decide (f_status = "All") <;>
    simp [Bool.and_comm]

/-- Claim C3 (amended): both filter chains return exactly the records
satisfying the conjunction of their supplied criteria, in store order,
with "All" and the empty query imposing no constraint; the text criterion
is the code's regex matcher, which agrees with case-insensitive literal
substring search exactly on metacharacter-free queries. -/
theorem filter_conjunction_amended
    (query type_filter assignee_filter f_assignee f_status : String)
    (df df2 : List TaskRecord) (_hq : supported_pattern query = true) :
    tasks_board_filter query type_filter assignee_filter df =
      df.filter (board_matches query type_filter assignee_filter) ∧
    dashboard_filter f_assignee f_status df2 =
      df2.filter (dash_matches f_assignee f_status) ∧
    (meta_free query = true →
      (∀ v : PyVal, py_contains v query = py_substr v query) ∧
      df.filter (board_matches query type_filter assignee_filter) =
        df.filter (spec_board_matches query type_filter assignee_filter)) := by
  refine ⟨board_filter_eq query type_filter assignee_filter df,
    dash_filter_eq f_assignee f_status df2, ?_⟩
  intro hm
  refine ⟨contains_eq_substr query hm, ?_⟩
  apply List.filter_congr
  intro r _
  simp only [board_matches, spec_board_matches, contains_eq_substr query hm]

/-- Witness for filter_conjunction_amended on a metacharacter-free query. -/
theorem filter_conjunction_amended_witness :
    tasks_board_filter "call" "All" "All" [sample_task] =
      [sample_task].filter (board_matches "call" "All" "All") ∧
    dashboard_filter "All" "Backlog" [sample_task] =
      [sample_task].filter (dash_matches "All" "Backlog") ∧
    (meta_free "call" = true →
      (∀ v : PyVal, py_contains v "call" = py_substr v "call") ∧
      [sample_task].filter (board_matches "call" "All" "All") =
        [sample_task].filter (spec_board_matches "call" "All" "All")) :=
  filter_conjunction_amended "call" "All" "All" "All" "Backlog"
    [sample_task] [sample_task] (by decide)

/-- Claim C3 as stated is false: the query "." does not occur as a literal
substring of the title "xyz" or of the empty notes, yet the Tasks Board
filter keeps the record, because pandas str.contains treats the query as a
regular expression ("." matches any character). -/
theorem filter_regex_dot_counterexample :
    tasks_board_filter "." "All" "All" [dot_task] = [dot_task] ∧
    [dot_task].filter (spec_board_matches "." "All" "All") = [] := by
  constructor
  · decide
  · decide

/- Characterizations of update_first. -/

lemma update_first_no_match {α : Type} (p : α → Bool) (f : α → Option α) :
    ∀ l : List α, (∀ x ∈ l, p x = false) → update_first p f l = l := by
  intro l
  induction l with
  | nil => intro _; rfl
  | cons x xs ih =>
      intro h
      have hx : p x = false := h x (by simp)
      simp [update_first, hx, ih (fun y hy => h y (by simp [hy]))]

lemma update_first_map {α : Type} (p : α → Bool) (g : α → α) :
    ∀ l : List α, l.countP p ≤ 1 →
      update_first p (fun x => some (g x)) l =
        l.map (fun x => if p x then g x else x) := by
  intro l
  induction l with
  | nil => intro _; rfl
  | cons x xs ih =>
      intro h
      cases hx : p x with
      | true =>
          have h0 : xs.countP p = 0 := by
            simp [List.countP_cons, hx] at h
            exact List.countP_eq_zero.mpr (fun a ha => by simp [h a ha])
          have hxs := List.countP_eq_zero.mp h0
          have hmap : xs.map (fun y => if p y then g y else y) = xs := by
            have h1 : xs.map (fun y => if p y then g y else y) = xs.map id := by
              apply List.map_congr_left
              intro y hy
              simp [hxs y hy]
            rw [h1, List.map_id]
          simp [update_first, hx, hmap]
      | false =>
          have h1 : xs.countP p ≤ 1 := by
            simp [List.countP_cons, hx] at h
            exact h
          simp [update_first, hx, ih h1]

lemma update_first_del {α : Type} (p : α → Bool) :
    ∀ l : List α, l.countP p ≤ 1 →
      update_first p (fun _ => none) l = l.filter (fun x => !(p x)) := by
  intro l
  induction l with
  | nil => intro _; rfl
  | cons x xs ih =>
      intro h
      cases hx : p x with
      | true =>
          have h0 : xs.countP p = 0 := by
            simp [List.countP_cons, hx] at h
            exact List.countP_eq_zero.mpr (fun a ha => by simp [h a ha])
          have hxs := List.countP_eq_zero.mp h0
          have hfil : xs.filter (fun y => !(p y)) = xs := by
            rw [List.filter_eq_self]
            intro y hy
            simp [hxs y hy]
          simp [update_first, hx, hfil]
      | false =>
          have h1 : xs.countP p ≤ 1 := by
            simp [List.countP_cons, hx] at h
            exact h
          simp [update_first, hx, ih h1]

lemma update_first_del_sublist {α : Type} (p : α → Bool) :
    ∀ l : List α, List.Sublist (update_first p (fun _ => none) l) l := by
  intro l
  induction l with
  | nil => exact List.Sublist.refl []
  | cons x xs ih =>
      cases hx : p x with
      | true =>
          simp only [update_first, hx, if_pos]
          exact (List.Sublist.refl xs).cons x
      | false =>
          simp only [update_first, hx, Bool.false_eq_true, if_neg,
            not_false_eq_true]
          exact ih.cons₂ x

lemma update_first_map_key {α β : Type} (key : α → β) (p : α → Bool) (g : α → α)
    (hg : ∀ x, key (g x) = key x) :
    ∀ l : List α,
      (update_first p (fun x => some (g x)) l).map key = l.map key := by
  intro l
  induction l with
  | nil => rfl
  | cons x xs ih =>
      cases hx : p x with
      | true => simp [update_first, hx, hg]
      | false => simp [update_first, hx, ih]

lemma nodup_count_le (tid : String) :
    ∀ df : List TaskRecord, (df.map (fun r => r.task_id)).Nodup →
      df.countP (fun r => pyEqStr r.task_id tid) ≤ 1 := by
  intro df
  induction df with
  | nil => intro _; simp
  | cons r df ih =>
      intro h
      rw [List.map_cons, List.nodup_cons] at h
      cases hr : pyEqStr r.task_id tid with
      | false =>
          rw [List.countP_cons]
          simp only [hr, if_false]
          simpa using ih h.2
      | true =>
          rw [List.countP_cons]
          simp only [hr, if_true]
          have h0 : df.countP (fun x => pyEqStr x.task_id tid) = 0 := by
            rw [List.countP_eq_zero]
            intro x hx hcx
            have e1 : r.task_id = PyVal.str tid := pyEqStr_true.mp hr
            have e2 : x.task_id = PyVal.str tid := pyEqStr_true.mp hcx
            apply h.1
            rw [e1, ← e2]
            exact List.mem_map_of_mem _ hx
          omega

/- The bulk loop under the store's id-uniqueness invariant. -/

lemma bulk_fold_map (g : TaskRecord → TaskRecord)
    (hkey : ∀ r, (g r).task_id = r.task_id)
    (hidem : ∀ r, g (g r) = g r) :
    ∀ (ids : List String) (df : List TaskRecord),
      (df.map (fun r => r.task_id)).Nodup →
      ids.foldl (fun d tid =>
          update_first (fun r => pyEqStr r.task_id tid) (fun r => some (g r)) d) df =
        df.map (fun r => if any_sel ids r then g r else r) := by
  intro ids
  induction ids with
  | nil =>
      intro df _
      simp [any_sel]
  | cons tid rest ih =>
      intro df hnd
      rw [List.foldl_cons]
      rw [update_first_map _ g df (nodup_count_le tid df hnd)]
      have hkeys : ((df.map (fun r => if pyEqStr r.task_id tid then g r else r)).map
          (fun r => r.task_id)) = df.map (fun r => r.task_id) := by
        rw [List.map_map]
        apply List.map_congr_left
        intro r _
        cases h1 : pyEqStr r.task_id tid <;> simp [h1, hkey]
      rw [ih _ (by rw [hkeys]; exact hnd)]
      rw [List.map_map]
      apply List.map_congr_left
      intro r _
      cases h1 : pyEqStr r.task_id tid <;>
        cases h2 : rest.any (fun t => pyEqStr r.task_id t) <;>
          simp [any_sel, h1, h2, hkey, hidem, -List.any_eq_true]

lemma bulk_fold_del :
    ∀ (ids : List String) (df : List TaskRecord),
      (df.map (fun r => r.task_id)).Nodup →
      ids.foldl (fun d tid =>
          update_first (fun r => pyEqStr r.task_id tid) (fun _ => none) d) df =
        df.filter (fun r => !(any_sel ids r)) := by
  intro ids
  induction ids with
  | nil =>
      intro df _
      simp [any_sel]
  | cons tid rest ih =>
      intro df hnd
      rw [List.foldl_cons]
      rw [update_first_del _ df (nodup_count_le tid df hnd)]
      have hnd2 : ((df.filter (fun r => !(pyEqStr r.task_id tid))).map
          (fun r => r.task_id)).Nodup :=
        ((List.filter_sublist df).map (fun r => r.task_id)).nodup hnd
      rw [ih _ hnd2]
      rw [List.filter_filter]
      apply List.filter_congr
      intro r _
      cases h1 : pyEqStr r.task_id tid <;>
        cases h2 : rest.any (fun t => pyEqStr r.task_id t) <;>
          simp [any_sel, h1, h2, -List.any_eq_true]

lemma bulk_fold_keys (g : TaskRecord → TaskRecord)
    (hkey : ∀ r, (g r).task_id = r.task_id) :
    ∀ (ids : List String) (df : List TaskRecord),
      ((ids.foldl (fun d tid =>
          update_first (fun r => pyEqStr r.task_id tid) (fun r => some (g r)) d) df).map
        (fun r => r.task_id)) = df.map (fun r => r.task_id) := by
  intro ids
  induction ids with
  | nil => intro df; rfl
  | cons tid rest ih =>
      intro df
      rw [List.foldl_cons, ih]
      exact update_first_map_key (fun r => r.task_id) _ g hkey df

lemma bulk_fold_del_sub :
    ∀ (ids : List String) (df : List TaskRecord),
      List.Sublist (ids.foldl (fun d tid =>
          update_first (fun r => pyEqStr r.task_id tid) (fun _ => none) d) df) df := by
  intro ids
  induction ids with
  | nil => intro df; exact List.Sublist.refl df
  | cons tid rest ih =>
      intro df
      rw [List.foldl_cons]
      exact (ih _).trans (update_first_del_sublist _ df)

lemma bulk_actions_eq_fold (ids : List String) (act : BulkAction)
    (df : List TaskRecord) :
    bulk_actions ids act df = ids.foldl (bulk_step act) df := by
  cases ids with
  | nil => rfl
  | cons a as => rfl

lemma bulk_fold_no_match (act : BulkAction) :
    ∀ (ids : List String) (df : List TaskRecord),
      (∀ tid ∈ ids, ∀ r ∈ df, pyEqStr r.task_id tid = false) →
      ids.foldl (bulk_step act) df = df := by
  intro ids
  induction ids with
  | nil => intro df _; rfl
  | cons tid rest ih =>
      intro df h
      rw [List.foldl_cons]
      have hstep : bulk_step act df tid = df := by
        cases act <;>
          exact update_first_no_match _ _ df (fun r hr => h tid (by simp) r hr)
      rw [hstep]
      exact ih df (fun t ht r hr => h t (by simp [ht]) r hr)

/-- Claim C7: updating an id present in the store rewrites exactly the
seven form fields of the first record carrying that id, leaves its
task_id, created and extra untouched, and leaves every record before and
after it unchanged. -/
theorem update_frame_spec (edit_id : String) (e : EditFields) :
    ∀ df : List TaskRecord, df.any (fun r => pyEqStr r.task_id edit_id) = true →
    ∃ pre target post,
      df = pre ++ target :: post ∧
      pyEqStr target.task_id edit_id = true ∧
      (∀ x ∈ pre, pyEqStr x.task_id edit_id = false) ∧
      update_task edit_id e df = pre ++ apply_edit e target :: post ∧
      (apply_edit e target).task_id = target.task_id ∧
      (apply_edit e target).created = target.created ∧
      (apply_edit e target).extra = target.extra ∧
      (apply_edit e target).title = PyVal.str e.title ∧
      (apply_edit e target).type_ = PyVal.str e.type_ ∧
      (apply_edit e target).assignee = PyVal.str e.assignee ∧
      (apply_edit e target).status = PyVal.str e.status ∧
      (apply_edit e target).pipeline_stage = PyVal.str e.pipeline_stage ∧
      (apply_edit e target).due = PyVal.str e.due ∧
      (apply_edit e target).notes = PyVal.str e.notes := by
  intro df
  induction df with
  | nil => intro h; simp at h
  | cons r df ih =>
      intro h
      cases hr : pyEqStr r.task_id edit_id with
      | true =>
          refine ⟨[], r, df, rfl, hr, by simp, ?_, rfl, rfl, rfl, rfl, rfl,
            rfl, rfl, rfl, rfl, rfl⟩
          simp [update_task, update_first, hr]
      | false =>
          have h2 : df.any (fun x => pyEqStr x.task_id edit_id) = true := by
            rw [List.any_cons, hr] at h
            simpa using h
          obtain ⟨pre, target, post, hdf, htar, hpre, hupd, hflds⟩ := ih h2
          refine ⟨r :: pre, target, post, ?_, htar, ?_, ?_, hflds⟩
          · rw [hdf]
            rfl
          · intro x hx
            rcases List.mem_cons.mp hx with hx | hx
            · rw [hx]
              exact hr
            · exact hpre x hx
          · have hcons : update_task edit_id e (r :: df) =
                r :: update_task edit_id e df := by
              simp [update_task, update_first, hr]
            rw [hcons, hupd]
            rfl

/-- Witness for update_frame_spec on a one-record store. -/
theorem update_frame_spec_witness :
    ∃ pre target post,
      [sample_task] = pre ++ target :: post ∧
      pyEqStr target.task_id "id-0" = true ∧
      (∀ x ∈ pre, pyEqStr x.task_id "id-0" = false) ∧
      update_task "id-0" edit0 [sample_task] = pre ++ apply_edit edit0 target :: post ∧
      (apply_edit edit0 target).task_id = target.task_id ∧
      (apply_edit edit0 target).created = target.created ∧
      (apply_edit edit0 target).extra = target.extra ∧
      (apply_edit edit0 target).title = PyVal.str edit0.title ∧
      (apply_edit edit0 target).type_ = PyVal.str edit0.type_ ∧
      (apply_edit edit0 target).assignee = PyVal.str edit0.assignee ∧
      (apply_edit edit0 target).status = PyVal.str edit0.status ∧
      (apply_edit edit0 target).pipeline_stage = PyVal.str edit0.pipeline_stage ∧
      (apply_edit edit0 target).due = PyVal.str edit0.due ∧
      (apply_edit edit0 target).notes = PyVal.str edit0.notes :=
  update_frame_spec "id-0" edit0 [sample_task] (by decide)

/-- Claim C4: a bulk action is applied to exactly the records whose id is
selected (under the store's id-uniqueness invariant); selected ids absent
from the store are skipped without error, and a selection consisting only
of absent ids leaves every record unchanged, for every action. -/
theorem bulk_apply_spec :
    (∀ (ids : List String) (act : BulkAction) (df : List TaskRecord),
        (∀ tid ∈ ids, ∀ r ∈ df, pyEqStr r.task_id tid = false) →
        bulk_actions ids act df = df) ∧
    (∀ (ids : List String) (df : List TaskRecord),
        (df.map (fun r => r.task_id)).Nodup →
        bulk_actions ids BulkAction.setInProgress df =
          df.map (fun r => if any_sel ids r
            then { r with status := PyVal.str "In Progress" } else r)) ∧
    (∀ (ids : List String) (df : List TaskRecord),
        (df.map (fun r => r.task_id)).Nodup →
        bulk_actions ids BulkAction.setCompleted df =
          df.map (fun r => if any_sel ids r
            then { r with status := PyVal.str "Completed" } else r)) ∧
    (∀ (ids : List String) (v : String) (df : List TaskRecord),
        (df.map (fun r => r.task_id)).Nodup →
        bulk_actions ids (BulkAction.assignTo v) df =
          df.map (fun r => if any_sel ids r
            then { r with assignee := PyVal.str v } else r)) ∧
    (∀ (ids : List String) (df : List TaskRecord),
        (df.map (fun r => r.task_id)).Nodup →
        bulk_actions ids BulkAction.deleteSel df =
          df.filter (fun r => !(any_sel ids r))) := by
  refine ⟨?_, ?_, ?_, ?_, ?_⟩
  · intro ids act df h
    rw [bulk_actions_eq_fold]
    exact bulk_fold_no_match act ids df h
  · intro ids df h
    rw [bulk_actions_eq_fold]
    exact bulk_fold_map (fun r => { r with status := PyVal.str "In Progress" })
      (fun r => rfl) (fun r => rfl) ids df h
  · intro ids df h
    rw [bulk_actions_eq_fold]
    exact bulk_fold_map (fun r => { r with status := PyVal.str "Completed" })
      (fun r => rfl) (fun r => rfl) ids df h
  · intro ids v df h
    rw [bulk_actions_eq_fold]
    exact bulk_fold_map (fun r => { r with assignee := PyVal.str v })
      (fun r => rfl) (fun r => rfl) ids df h
  · intro ids df h
    rw [bulk_actions_eq_fold]
    exact bulk_fold_del ids df h

/-- Witness for bulk_apply_spec: an absent id mutates nothing, and each
action applied at a present id on a concrete store. -/
theorem bulk_apply_spec_witness :
    bulk_actions ["zzz"] BulkAction.deleteSel [sample_task] = [sample_task] ∧
    bulk_actions ["id-0"] BulkAction.setInProgress [sample_task] =
      [sample_task].map (fun r => if any_sel ["id-0"] r
        then { r with status := PyVal.str "In Progress" } else r) ∧
    bulk_actions ["id-0"] BulkAction.setCompleted [sample_task] =
      [sample_task].map (fun r => if any_sel ["id-0"] r
        then { r with status := PyVal.str "Completed" } else r) ∧
    bulk_actions ["id-0"] (BulkAction.assignTo "Ana") [sample_task] =
      [sample_task].map (fun r => if any_sel ["id-0"] r
        then { r with assignee := PyVal.str "Ana" } else r) ∧
    bulk_actions ["id-0"] BulkAction.deleteSel [sample_task] =
      [sample_task].filter (fun r => !(any_sel ["id-0"] r)) :=
  ⟨bulk_apply_spec.1 ["zzz"] BulkAction.deleteSel [sample_task] (by decide),
   bulk_apply_spec.2.1 ["id-0"] [sample_task] (by decide),
   bulk_apply_spec.2.2.1 ["id-0"] [sample_task] (by decide),
   bulk_apply_spec.2.2.2.1 ["id-0"] "Ana" [sample_task] (by decide),
   bulk_apply_spec.2.2.2.2 ["id-0"] [sample_task] (by decide)⟩

lemma seed_tasks_keys (gen : Nat → String) (now : String) :
    ∀ (i : Nat) (ts : List String),
      (seed_tasks gen now i ts).map (fun r => r.task_id) =
        (List.range' i ts.length).map (fun k => PyVal.str (gen k)) := by
  intro i ts
  induction ts generalizing i with
  | nil => rfl
  | cons t ts ih =>
      simp [seed_tasks, make_task_row, pyOr, truthy_none, ih (i + 1),
        List.range'_succ]

/-- Claim C8 as stated is false: importing a source whose rows carry the
same task_id twice yields a reachable store with two records sharing one
task_id — the import loop never enforces uniqueness. -/
theorem import_duplicate_ids_counterexample :
    (import_loop gen_id "2024-01-02T00:00:00" 0 [dup_row, dup_row]).map
        (fun r => r.task_id) = [PyVal.str "x", PyVal.str "x"] ∧
    ¬ ((import_loop gen_id "2024-01-02T00:00:00" 0 [dup_row, dup_row]).map
        (fun r => r.task_id)).Nodup := by
  constructor
  · rfl
  · decide

/-- Claim C8 (amended): no operation ever changes the task_id of a stored
record — update and the mutating bulk actions preserve the id column
exactly, bulk delete only removes entries from it, creation appends the
fresh generated id, and the demo seed has pairwise distinct ids under an
injective id supply — so id-uniqueness is preserved by every operation
except an importRows whose source itself supplies duplicate ids. -/
theorem task_id_invariants_amended :
    (∀ (edit_id : String) (e : EditFields) (df : List TaskRecord),
        (update_task edit_id e df).map (fun r => r.task_id) =
          df.map (fun r => r.task_id)) ∧
    (∀ (ids : List String) (df : List TaskRecord),
        (bulk_actions ids BulkAction.setInProgress df).map (fun r => r.task_id) =
          df.map (fun r => r.task_id)) ∧
    (∀ (ids : List String) (df : List TaskRecord),
        (bulk_actions ids BulkAction.setCompleted df).map (fun r => r.task_id) =
          df.map (fun r => r.task_id)) ∧
    (∀ (ids : List String) (v : String) (df : List TaskRecord),
        (bulk_actions ids (BulkAction.assignTo v) df).map (fun r => r.task_id) =
          df.map (fun r => r.task_id)) ∧
    (∀ (ids : List String) (df : List TaskRecord),
        List.Sublist
          ((bulk_actions ids BulkAction.deleteSel df).map (fun r => r.task_id))
          (df.map (fun r => r.task_id)) ∧
        ((df.map (fun r => r.task_id)).Nodup →
          ((bulk_actions ids BulkAction.deleteSel df).map
            (fun r => r.task_id)).Nodup)) ∧
    (∀ (gen : Nat → String) (now : String) (n : Nat)
        (q_title q_assignee q_type : String) (q_due : PyVal)
        (df : List TaskRecord),
        (quick_task_create gen now n q_title q_assignee q_type q_due df).map
            (fun r => r.task_id) =
          df.map (fun r => r.task_id) ++ [PyVal.str (gen n)] ∧
        (PyVal.str (gen n) ∉ df.map (fun r => r.task_id) →
          (df.map (fun r => r.task_id)).Nodup →
          ((quick_task_create gen now n q_title q_assignee q_type q_due df).map
            (fun r => r.task_id)).Nodup)) ∧
    (∀ (gen : Nat → String) (now : String), Function.Injective gen →
        ((load_demo_tasks gen now).map (fun r => r.task_id)).Nodup) := by
  refine ⟨?_, ?_, ?_, ?_, ?_, ?_, ?_⟩
  · intro edit_id e df
    apply update_first_map_key (fun r => r.task_id)
      (fun r => pyEqStr r.task_id edit_id) (apply_edit e)
    intro r
    rfl
  · intro ids df
    rw [bulk_actions_eq_fold]
    exact bulk_fold_keys (fun r => { r with status := PyVal.str "In Progress" })
      (fun r => rfl) ids df
  · intro ids df
    rw [bulk_actions_eq_fold]
    exact bulk_fold_keys (fun r => { r with status := PyVal.str "Completed" })
      (fun r => rfl) ids df
  · intro ids v df
    rw [bulk_actions_eq_fold]
    exact bulk_fold_keys (fun r => { r with assignee := PyVal.str v })
      (fun r => rfl) ids df
  · intro ids df
    have hsub : List.Sublist
        ((bulk_actions ids BulkAction.deleteSel df).map (fun r => r.task_id))
        (df.map (fun r => r.task_id)) := by
      rw [bulk_actions_eq_fold]
      exact (bulk_fold_del_sub ids df).map (fun r => r.task_id)
    exact ⟨hsub, fun hnd => hnd.sublist hsub⟩
  · intro gen now n q_title q_assignee q_type q_due df
    have hmap : (quick_task_create gen now n q_title q_assignee q_type q_due df).map
        (fun r => r.task_id) = df.map (fun r => r.task_id) ++ [PyVal.str (gen n)] := by
      simp [quick_task_create, make_task_row, pyOr, truthy_none]
    refine ⟨hmap, ?_⟩
    intro hmem hnd
    rw [hmap]
    simp [List.nodup_append, hnd, hmem]
  · intro gen now hinj
    rw [load_demo_tasks, seed_tasks_keys]
    apply List.Nodup.map
    · intro a b hab
      have h1 : gen a = gen b := by
        simpa using hab
      exact hinj h1
    · exact List.nodup_range' 0 core_tasks.length

/-- Witness for task_id_invariants_amended at concrete inputs. -/
theorem task_id_invariants_amended_witness :
    (update_task "id-0" edit0 [sample_task]).map (fun r => r.task_id) =
      [sample_task].map (fun r => r.task_id) ∧
    ((bulk_actions ["id-0"] BulkAction.deleteSel [sample_task]).map
      (fun r => r.task_id)).Nodup ∧
    ((quick_task_create gen_id "2024-01-02T00:00:00" 3 "T" "Ana" "Operational"
        PyVal.none [sample_task]).map (fun r => r.task_id)).Nodup ∧
    ((load_demo_tasks gen_id "2024-01-02T00:00:00").map
      (fun r => r.task_id)).Nodup :=
  ⟨task_id_invariants_amended.1 "id-0" edit0 [sample_task],
   (task_id_invariants_amended.2.2.2.2.1 ["id-0"] [sample_task]).2 (by decide),
   (task_id_invariants_amended.2.2.2.2.2.1 gen_id "2024-01-02T00:00:00" 3 "T"
      "Ana" "Operational" PyVal.none [sample_task]).2 (by decide) (by decide),
   task_id_invariants_amended.2.2.2.2.2.2 gen_id "2024-01-02T00:00:00" gen_id_inj⟩
